import Mathlib

/-!
Shallow embedding of the financial model engine of the Enexor BioCO2
financial app (`src/App.jsx`): the simulation entry point
`runFinancialModel` and the sensitivity sweep `runSensitivity`.

JavaScript numbers are idealised as real numbers (`ℝ`); integer-valued
loop counters and calendar years are `ℕ` / `ℤ`.  The project horizon
`T_project` is integral (its UI slider has `step={1}`), so the year loop
`for (let y = 0; y <= T_project; y++)` is a map over `List.range
(T_project + 1)`.  The fleet size `N_units` is kept real because the
sensitivity sweep rescales it by 0.8 / 1.2; the JS loops over units are
translated by their exact iteration counts (`Int.floor` / `Int.ceil`),
and the JS array read `unit_capex[n - 1] || 0` (which yields 0 for any
non-integer or out-of-range index) is `jsArrGet`.
-/

noncomputable section

namespace BioCO2

/-- The flat input parameter record destructured at the top of
`runFinancialModel` (`src/App.jsx`, lines 40-53). -/
structure ModelInputs where
  CO2_tpd : ℝ
  f_avail : ℝ
  E_spec : ℝ
  W_total : ℝ
  CR_45Q : ℝ
  f_45Q : ℝ
  T_45Q : ℕ
  Y_45Q_infl : ℤ
  r_CPI : ℝ
  Q_thresh_45Q : ℝ
  P_VCM : ℝ
  f_VCM : ℝ
  r_VCM : ℝ
  P_offtake : ℝ
  f_offtake : ℝ
  r_offtake : ℝ
  P_comply : ℝ
  f_comply : ℝ
  gh_45Q_eligible : Bool
  f_greenhouse : ℝ
  P_greenhouse : ℝ
  C_vessels : ℝ
  C_adsorbent : ℝ
  C_HX : ℝ
  C_blower : ℝ
  C_valves : ℝ
  C_compressor : ℝ
  C_pretreat : ℝ
  C_controls : ℝ
  C_electrical : ℝ
  C_piping : ℝ
  C_container : ℝ
  f_install : ℝ
  f_engineering : ℝ
  P_elec : ℝ
  T_ads_life : ℝ
  C_valve_maint : ℝ
  C_cal : ℝ
  f_insurance : ℝ
  C_monitor : ℝ
  f_maint : ℝ
  r_OPEX : ℝ
  r_disc : ℝ
  T_project : ℕ
  Y_start : ℤ
  r_rev : ℝ
  N_units : ℝ
  LR : ℝ
  units_per_year : ℝ

open Classical in
/-- JS array read `xs[x] || 0` at a real-valued index: the element when
`x` is a natural number within range, `0` otherwise (JS indexing with a
fractional or out-of-range index yields `undefined`, coerced to 0 by
`|| 0`). -/
def jsArrGet (xs : List ℝ) (x : ℝ) : ℝ :=
  if h : ∃ m : ℕ, (m : ℝ) = x then xs.getD h.choose 0 else 0

/-- Annual CO₂ per unit: `CO2_tpy = CO2_tpd * 365 * f_avail` (line 58). -/
def CO2_tpy (I : ModelInputs) : ℝ := I.CO2_tpd * 365 * I.f_avail

/-- Sum of the eleven capital line items (lines 61-62). -/
def C_equipment (I : ModelInputs) : ℝ :=
  I.C_vessels + I.C_adsorbent + I.C_HX + I.C_blower + I.C_valves
    + I.C_compressor + I.C_pretreat + I.C_controls + I.C_electrical + I.C_piping + I.C_container

/-- Single-unit CAPEX `C_equipment * (1 + f_install + f_engineering)` (line 63). -/
def CAPEX_unit1 (I : ModelInputs) : ℝ := C_equipment I * (1 + I.f_install + I.f_engineering)

/-- Learning-curve exponent `log(LR) / log(2)` (line 66). -/
def lr_exp (I : ModelInputs) : ℝ := Real.log I.LR / Real.log 2

/-- Number of iterations of the JS loop `for (n = 1; n <= N_units; n++)`:
the naturals `1 ≤ n ≤ N_units`. -/
def numUnits (I : ModelInputs) : ℕ := (Int.floor I.N_units).toNat

/-- Per-unit capital cost schedule `unit_capex` (lines 67-73); entry `i`
is the cost of unit `n = i + 1`, `CAPEX_unit1 * n ^ lr_exp` (real-exponent
`Math.pow`, i.e. `Real.rpow`). -/
def unit_capex (I : ModelInputs) : List ℝ :=
  (List.range (numUnits I)).map fun i => CAPEX_unit1 I * ((i + 1 : ℕ) : ℝ) ^ lr_exp I

/-- Total fleet CAPEX (accumulated in the same loop, line 72). -/
def capex_fleet_total (I : ModelInputs) : ℝ := (unit_capex I).sum

/-- Deployed fleet size `Math.min(N_units, Math.floor(y * units_per_year) + 1)`
(line 86). -/
def N_deployed (I : ModelInputs) (y : ℕ) : ℝ :=
  min I.N_units ((⌊(y : ℝ) * I.units_per_year⌋ : ℝ) + 1)

/-- Previous year's deployed fleet size (line 87). -/
def N_prev (I : ModelInputs) (y : ℕ) : ℝ :=
  if y = 0 then 0 else N_deployed I (y - 1)

/-- Fleet CO₂ output for year offset `y` (line 90). -/
def CO2_fleet (I : ModelInputs) (y : ℕ) : ℝ := N_deployed I y * CO2_tpy I

/-- 45Q eligibility flag `CO2_fleet >= Q_thresh_45Q` (line 91). -/
def is_45Q_eligible (I : ModelInputs) (y : ℕ) : Bool :=
  decide (I.Q_thresh_45Q ≤ CO2_fleet I y)

/-- Iteration count of the loop `for (n = N_prev + 1; n <= N_deployed; n++)`
(lines 95-97): the number of steps `j ≥ 0` with `N_prev + 1 + j ≤ N_deployed`. -/
def capexYearLen (I : ModelInputs) (y : ℕ) : ℕ :=
  (Int.floor (N_deployed I y - N_prev I y)).toNat

/-- Capital spent in year `y` (lines 94-97): the `j`-th iteration reads
`unit_capex[n - 1] || 0` at index `n - 1 = N_prev + j`. -/
def capex_year (I : ModelInputs) (y : ℕ) : ℝ :=
  ∑ j ∈ Finset.range (capexYearLen I y), jsArrGet (unit_capex I) (N_prev I y + (j : ℝ))

/-- Iteration count of `for (n = 0; n < N_deployed; n++)` (line 101): the
number of naturals strictly below `N_deployed`. -/
def capexCumLen (I : ModelInputs) (y : ℕ) : ℕ :=
  (Int.ceil (N_deployed I y)).toNat

/-- Cumulative CAPEX deployed by year `y` (lines 100-101). -/
def capex_cum (I : ModelInputs) (y : ℕ) : ℝ :=
  ∑ n ∈ Finset.range (capexCumLen I y), (unit_capex I).getD n 0

/-- Generic revenue escalation `(1 + r_rev / 100) ^ y` (line 104). -/
def escalation_rev (I : ModelInputs) (y : ℕ) : ℝ := (1 + I.r_rev / 100) ^ y

/-- Effective 45Q credit rate (lines 109-112): the base rate `CR_45Q`,
multiplied by `(1 + r_CPI / 100) ^ (year - Y_45Q_infl)` once the calendar
year reaches the inflation start year. -/
def effCreditRate (I : ModelInputs) (y : ℕ) : ℝ :=
  if I.Y_45Q_infl ≤ I.Y_start + (y : ℤ) then
    I.CR_45Q * (1 + I.r_CPI / 100) ^ (I.Y_start + (y : ℤ) - I.Y_45Q_infl)
  else I.CR_45Q

/-- 45Q revenue for year offset `y` (lines 107-118). -/
def R_45Q (I : ModelInputs) (y : ℕ) : ℝ :=
  if 0 < I.f_45Q ∧ y ≤ I.T_45Q ∧ I.Q_thresh_45Q ≤ CO2_fleet I y then
    let cr := effCreditRate I y
    let CO2_non_gh := CO2_fleet I y * I.f_45Q * (1 - I.f_greenhouse)
    let CO2_gh := CO2_fleet I y * I.f_greenhouse
    if I.gh_45Q_eligible then (CO2_non_gh + CO2_gh) * cr else CO2_non_gh * cr
  else 0

/-- Escalated VCM price (line 121). -/
def P_VCM_y (I : ModelInputs) (y : ℕ) : ℝ := I.P_VCM * (1 + I.r_VCM / 100) ^ y

/-- VCM revenue (line 122). -/
def R_VCM (I : ModelInputs) (y : ℕ) : ℝ := CO2_fleet I y * I.f_VCM * P_VCM_y I y

/-- Escalated offtake price (line 125). -/
def P_offtake_y (I : ModelInputs) (y : ℕ) : ℝ := I.P_offtake * (1 + I.r_offtake / 100) ^ y

/-- Escalated greenhouse offtake price (line 126). -/
def P_gh_y (I : ModelInputs) (y : ℕ) : ℝ := I.P_greenhouse * (1 + I.r_offtake / 100) ^ y

/-- Non-greenhouse part of the offtake stream (line 127). -/
def R_offtake_non_gh (I : ModelInputs) (y : ℕ) : ℝ :=
  CO2_fleet I y * max 0 (I.f_offtake - I.f_greenhouse) * P_offtake_y I y

/-- Greenhouse part of the offtake stream (line 128). -/
def R_offtake_gh (I : ModelInputs) (y : ℕ) : ℝ :=
  CO2_fleet I y * I.f_greenhouse * P_gh_y I y

/-- Offtake revenue (line 129). -/
def R_offtake (I : ModelInputs) (y : ℕ) : ℝ := R_offtake_non_gh I y + R_offtake_gh I y

/-- Compliance revenue (line 132). -/
def R_comply (I : ModelInputs) (y : ℕ) : ℝ :=
  CO2_fleet I y * I.f_comply * I.P_comply * escalation_rev I y

/-- Total revenue (line 134). -/
def R_total (I : ModelInputs) (y : ℕ) : ℝ :=
  R_45Q I y + R_VCM I y + R_offtake I y + R_comply I y

/-- OPEX escalation factor (line 137). -/
def opex_escalation (I : ModelInputs) (y : ℕ) : ℝ := (1 + I.r_OPEX / 100) ^ y

/-- Electricity cost (line 138). -/
def C_elec (I : ModelInputs) (y : ℕ) : ℝ :=
  N_deployed I y * I.W_total * 8760 * I.f_avail * I.P_elec

/-- Adsorbent replacement cost (line 139). -/
def C_ads_replace (I : ModelInputs) (y : ℕ) : ℝ :=
  N_deployed I y * I.C_adsorbent / I.T_ads_life

/-- Flat per-unit cost items (line 140). -/
def C_fixed (I : ModelInputs) (y : ℕ) : ℝ :=
  N_deployed I y * (I.C_valve_maint + I.C_cal + I.C_monitor)

/-- Insurance cost (line 141). -/
def C_insure (I : ModelInputs) (y : ℕ) : ℝ := capex_cum I y * I.f_insurance / 100

/-- General maintenance cost (line 142). -/
def C_gen_maint (I : ModelInputs) (y : ℕ) : ℝ := capex_cum I y * I.f_maint / 100

/-- Total OPEX (line 143). -/
def OPEX (I : ModelInputs) (y : ℕ) : ℝ :=
  (C_elec I y + C_ads_replace I y + C_fixed I y + C_insure I y + C_gen_maint I y)
    * opex_escalation I y

/-- Net cash flow (line 146). -/
def CF (I : ModelInputs) (y : ℕ) : ℝ := R_total I y - OPEX I y - capex_year I y

/-- Discount factor (line 147). -/
def discount_factor (I : ModelInputs) (y : ℕ) : ℝ := (1 + I.r_disc / 100) ^ y

/-- Discounted cash flow (line 148). -/
def DCF (I : ModelInputs) (y : ℕ) : ℝ := CF I y / discount_factor I y

/-- Running cumulative discounted cash flow after year `y` (line 149). -/
def cumulative_dcf (I : ModelInputs) (y : ℕ) : ℝ := ∑ k ∈ Finset.range (y + 1), DCF I k

/-- One entry of the `years` array (lines 159-165). -/
structure YearRecord where
  year : ℤ
  y : ℕ
  N_deployed : ℝ
  CO2_fleet : ℝ
  is_45Q_eligible : Bool
  R_45Q : ℝ
  R_VCM : ℝ
  R_offtake : ℝ
  R_comply : ℝ
  R_total : ℝ
  OPEX : ℝ
  capex_year : ℝ
  CF : ℝ
  DCF : ℝ
  cumulative_dcf : ℝ
  R_per_ton : ℝ
  OPEX_per_ton : ℝ

instance : Inhabited YearRecord :=
  ⟨⟨0, 0, 0, 0, false, 0, 0, 0, 0, 0, 0, 0, 0, 0, 0, 0, 0⟩⟩

/-- The record pushed onto `years` for year offset `y` (lines 159-165);
note the zero-guards on the two per-ton ratio fields. -/
def mkYear (I : ModelInputs) (y : ℕ) : YearRecord where
  year := I.Y_start + (y : ℤ)
  y := y
  N_deployed := N_deployed I y
  CO2_fleet := CO2_fleet I y
  is_45Q_eligible := is_45Q_eligible I y
  R_45Q := R_45Q I y
  R_VCM := R_VCM I y
  R_offtake := R_offtake I y
  R_comply := R_comply I y
  R_total := R_total I y
  OPEX := OPEX I y
  capex_year := capex_year I y
  CF := CF I y
  DCF := DCF I y
  cumulative_dcf := cumulative_dcf I y
  R_per_ton := if 0 < CO2_fleet I y then R_total I y / CO2_fleet I y else 0
  OPEX_per_ton := if 0 < CO2_fleet I y then OPEX I y / CO2_fleet I y else 0

/-- The year-by-year simulation `for (let y = 0; y <= T_project; y++)`
(lines 82-166). -/
def years (I : ModelInputs) : List YearRecord :=
  (List.range (I.T_project + 1)).map (mkYear I)

/-- NPV: the value of the `cumulative_dcf` accumulator after the year loop
(line 169). -/
def NPV (I : ModelInputs) : ℝ := cumulative_dcf I I.T_project

/-- The IRR objective `Σ yr.CF / (1 + r) ^ yr.y` over the year records
(lines 176-179). -/
def npvAtRate (ys : List YearRecord) (r : ℝ) : ℝ :=
  (ys.map fun yr => yr.CF / (1 + r) ^ yr.y).sum

/-- The IRR bisection loop (lines 174-182): up to `fuel` iterations, each
moving `lo` up when the test NPV is positive and `hi` down otherwise,
breaking once the bracket width drops below 0.0001. -/
def irrLoop (ys : List YearRecord) : ℕ → ℝ → ℝ → ℝ × ℝ
  | 0, lo, hi => (lo, hi)
  | fuel + 1, lo, hi =>
    let mid := (lo + hi) / 2
    let p := if 0 < npvAtRate ys mid then (mid, hi) else (lo, mid)
    if |p.2 - p.1| < 0.0001 then p else irrLoop ys fuel p.1 p.2

/-- The final IRR bracket, starting from `[-0.5, 2.0]` with 100 iterations
(line 173-182). -/
def irrFinal (I : ModelInputs) : ℝ × ℝ := irrLoop (years I) 100 (-0.5) 2

/-- IRR (lines 172-185): the final bracket midpoint when both endpoints
moved by more than 0.01 from their initial extremes, `null` otherwise. -/
def IRR (I : ModelInputs) : Option ℝ :=
  if 0.01 < |(irrFinal I).1 - (-0.5)| ∧ 0.01 < |(irrFinal I).2 - 2| then
    some (((irrFinal I).1 + (irrFinal I).2) / 2)
  else none

/-- The breakeven objective (lines 203-210): NPV at the base discount rate
with the 45Q stream recomputed at candidate credit price `mid`. -/
def beNpvAt (I : ModelInputs) (ys : List YearRecord) (mid : ℝ) : ℝ :=
  (ys.map fun yr =>
    ((if yr.is_45Q_eligible = true ∧ yr.y ≤ I.T_45Q then yr.CO2_fleet * I.f_45Q * mid else 0)
        + (yr.R_VCM + yr.R_offtake + yr.R_comply) - yr.OPEX - yr.capex_year)
      / (1 + I.r_disc / 100) ^ yr.y).sum

/-- The breakeven bisection loop (lines 200-213): `b_lo` moves up when the
test NPV is negative, `b_hi` moves down otherwise, breaking once the
bracket width drops below 0.5. -/
def beLoop (I : ModelInputs) (ys : List YearRecord) : ℕ → ℝ → ℝ → ℝ × ℝ
  | 0, lo, hi => (lo, hi)
  | fuel + 1, lo, hi =>
    let mid := (lo + hi) / 2
    let p := if beNpvAt I ys mid < 0 then (mid, hi) else (lo, mid)
    if |p.2 - p.1| < 0.5 then p else beLoop I ys fuel p.1 p.2

/-- The final breakeven bracket, starting from `[0, 300]` with 80
iterations (lines 200-213). -/
def beFinal (I : ModelInputs) : ℝ × ℝ := beLoop I (years I) 80 0 300

/-- Breakeven credit price (lines 198-215): unconditionally the final
bracket midpoint (the initial `null` is always overwritten). -/
def CR_breakeven (I : ModelInputs) : Option ℝ :=
  some (((beFinal I).1 + (beFinal I).2) / 2)

/-- The "year 1" record `years[1] || years[0]` (line 218). -/
def yr1 (I : ModelInputs) : YearRecord :=
  ((years I)[1]?).getD (((years I)[0]?).getD default)

/-- The aggregate result returned by `runFinancialModel` (lines 241-248);
fields not referenced by any claim (LCCC, paybacks, warnings,
threshold_year) are omitted. -/
structure ModelResult where
  CO2_tpy : ℝ
  CO2_fleet_yr1 : ℝ
  CAPEX_unit1 : ℝ
  capex_fleet_total : ℝ
  unit_capex : List ℝ
  NPV : ℝ
  IRR : Option ℝ
  CR_breakeven : Option ℝ
  R_per_ton_45Q : ℝ
  R_per_ton_VCM : ℝ
  R_per_ton_offtake : ℝ
  R_per_ton_comply : ℝ
  years : List YearRecord
  yr1_revenue : ℝ
  yr1_opex : ℝ

/-- The simulate entry point `runFinancialModel` (lines 39-249). -/
def runFinancialModel (I : ModelInputs) : ModelResult where
  CO2_tpy := CO2_tpy I
  CO2_fleet_yr1 := (yr1 I).CO2_fleet
  CAPEX_unit1 := CAPEX_unit1 I
  capex_fleet_total := capex_fleet_total I
  unit_capex := unit_capex I
  NPV := NPV I
  IRR := IRR I
  CR_breakeven := CR_breakeven I
  R_per_ton_45Q := if 0 < (yr1 I).CO2_fleet then (yr1 I).R_45Q / (yr1 I).CO2_fleet else 0
  R_per_ton_VCM := if 0 < (yr1 I).CO2_fleet then (yr1 I).R_VCM / (yr1 I).CO2_fleet else 0
  R_per_ton_offtake := if 0 < (yr1 I).CO2_fleet then (yr1 I).R_offtake / (yr1 I).CO2_fleet else 0
  R_per_ton_comply := if 0 < (yr1 I).CO2_fleet then (yr1 I).R_comply / (yr1 I).CO2_fleet else 0
  years := years I
  yr1_revenue := (yr1 I).R_total
  yr1_opex := (yr1 I).OPEX

/-- The 8 parameter keys perturbed by `runSensitivity` (lines 253-262). -/
inductive SensKey
  | kCR_45Q
  | kCO2_tpd
  | kf_avail
  | kP_offtake
  | kP_elec
  | kr_disc
  | kN_units
  | kT_ads_life
deriving DecidableEq

/-- Read the input field named by a sensitivity key (`baseInputs[p.key]`). -/
def getKey (I : ModelInputs) : SensKey → ℝ
  | .kCR_45Q => I.CR_45Q
  | .kCO2_tpd => I.CO2_tpd
  | .kf_avail => I.f_avail
  | .kP_offtake => I.P_offtake
  | .kP_elec => I.P_elec
  | .kr_disc => I.r_disc
  | .kN_units => I.N_units
  | .kT_ads_life => I.T_ads_life

/-- Overwrite the input field named by a sensitivity key
(`{ ...baseInputs, [p.key]: v }`). -/
def setKey (I : ModelInputs) : SensKey → ℝ → ModelInputs
  | .kCR_45Q, v => { I with CR_45Q := v }
  | .kCO2_tpd, v => { I with CO2_tpd := v }
  | .kf_avail, v => { I with f_avail := v }
  | .kP_offtake, v => { I with P_offtake := v }
  | .kP_elec, v => { I with P_elec := v }
  | .kr_disc, v => { I with r_disc := v }
  | .kN_units, v => { I with N_units := v }
  | .kT_ads_life, v => { I with T_ads_life := v }

/-- One tornado entry (lines 270-275). -/
structure SensEntry where
  key : SensKey
  label : String
  unit : String
  npv_lo : ℝ
  npv_hi : ℝ
  delta : ℝ
  base_val : ℝ

/-- The fixed parameter list of `runSensitivity` (lines 253-262). -/
def sensParams : List (SensKey × String × String) :=
  [(.kCR_45Q, "45Q Credit Rate", "$/ton"),
   (.kCO2_tpd, "CO₂ Capture Rate", "t/day"),
   (.kf_avail, "Availability", ""),
   (.kP_offtake, "Offtake Price", "$/ton"),
   (.kP_elec, "Electricity Rate", "$/kWh"),
   (.kr_disc, "Discount Rate", "%"),
   (.kN_units, "Fleet Size", "units"),
   (.kT_ads_life, "Adsorbent Life", "years")]

/-- One perturbation run (lines 264-275), parameterised by the possibly
failing NPV evaluation `f` (exception semantics: `none` = the model run
threw).  The `try/catch` on each side substitutes `baseNPV` when `f`
fails, which is `Option.getD`. -/
def sensEntry (f : ModelInputs → Option ℝ) (baseNPV : ℝ) (I : ModelInputs)
    (p : SensKey × String × String) : SensEntry :=
  let lo_inputs := setKey I p.1 (getKey I p.1 * 0.8)
  let hi_inputs := setKey I p.1 (getKey I p.1 * 1.2)
  let npv_lo := (f lo_inputs).getD baseNPV
  let npv_hi := (f hi_inputs).getD baseNPV
  { key := p.1
    label := p.2.1
    unit := p.2.2
    npv_lo := npv_lo
    npv_hi := npv_hi
    delta := |npv_hi - npv_lo|
    base_val := getKey I p.1 }

/-- The sensitivity sweep over an arbitrary possibly-failing model `f`:
map over the 8 parameters, then `.sort((a, b) => b.delta - a.delta)`
(descending by delta; JS sort is stable, so it is a stable insertion
sort under `b.delta ≤ a.delta`). -/
def runSensitivityWith (f : ModelInputs → Option ℝ) (I : ModelInputs)
    (baseNPV : ℝ) : List SensEntry :=
  List.insertionSort (fun a b => b.delta ≤ a.delta) (sensParams.map (sensEntry f baseNPV I))

/-- The NPV of a model run wrapped in the exception monad; the
real-arithmetic engine is total, so it always succeeds. -/
def modelNPV (I : ModelInputs) : Option ℝ := some (runFinancialModel I).NPV

/-- The sensitivity entry point `runSensitivity` (lines 252-277). -/
def runSensitivity (I : ModelInputs) (baseNPV : ℝ) : List SensEntry :=
  runSensitivityWith modelNPV I baseNPV

/-! ### Concrete input sets used for witnesses and counterexamples -/

/-- The default input set of the app (the `useState` initialiser,
`src/App.jsx` lines 430-441). -/
def defaultInputs : ModelInputs where
  CO2_tpd := 3.5
  f_avail := 0.90
  E_spec := 1200
  W_total := 65
  CR_45Q := 85
  f_45Q := 0.5
  T_45Q := 12
  Y_45Q_infl := 2027
  r_CPI := 2.5
  Q_thresh_45Q := 12500
  P_VCM := 40
  f_VCM := 0
  r_VCM := 3
  P_offtake := 70
  f_offtake := 0.5
  r_offtake := 2
  P_comply := 0
  f_comply := 0
  gh_45Q_eligible := false
  f_greenhouse := 0
  P_greenhouse := 70
  C_vessels := 60000
  C_adsorbent := 20000
  C_HX := 20000
  C_blower := 15000
  C_valves := 35000
  C_compressor := 5000
  C_pretreat := 15000
  C_controls := 25000
  C_electrical := 12000
  C_piping := 18000
  C_container := 12000
  f_install := 0.20
  f_engineering := 0.15
  P_elec := 0.08
  T_ads_life := 7
  C_valve_maint := 5000
  C_cal := 5000
  f_insurance := 1.5
  C_monitor := 3000
  f_maint := 3.0
  r_OPEX := 2.0
  r_disc := 10
  T_project := 20
  Y_start := 2026
  r_rev := 2.0
  N_units := 4
  LR := 0.85
  units_per_year := 2

/-- All four allocation fractions zero but a nonzero greenhouse fraction
(reachable through the greenhouse sliders). -/
def inputsGh : ModelInputs :=
  { defaultInputs with
      CO2_tpd := 1, f_avail := 1, f_45Q := 0, f_VCM := 0, f_offtake := 0,
      f_comply := 0, f_greenhouse := 0.5, T_project := 0, N_units := 1 }

/-- All four allocation fractions zero and greenhouse fraction zero. -/
def inputsZeroAlloc : ModelInputs :=
  { defaultInputs with f_45Q := 0, f_VCM := 0, f_offtake := 0, f_comply := 0 }

/-- Negative base credit rate with positive CPI escalation. -/
def inputsNegRate : ModelInputs :=
  { defaultInputs with CR_45Q := -1, r_CPI := 100, Y_start := 1, Y_45Q_infl := 0 }

/-- A one-year project whose single cash flow is the constant 365
(pure compliance revenue, no costs): its IRR objective is positive at
every rate, so the IRR bisection collapses onto the upper bracket end. -/
def inputsAllPos : ModelInputs :=
  { defaultInputs with
      CO2_tpd := 1, f_avail := 1, f_45Q := 0, f_VCM := 0, f_offtake := 0,
      f_greenhouse := 0, f_comply := 1, P_comply := 1, r_rev := 0,
      W_total := 0, C_vessels := 0, C_adsorbent := 0, C_HX := 0, C_blower := 0,
      C_valves := 0, C_compressor := 0, C_pretreat := 0, C_controls := 0,
      C_electrical := 0, C_piping := 0, C_container := 0,
      C_valve_maint := 0, C_cal := 0, C_monitor := 0, f_insurance := 0,
      f_maint := 0, r_OPEX := 0, T_ads_life := 1, r_disc := 0,
      T_project := 0, N_units := 1, units_per_year := 1 }

/-- Zero capture rate (zero fleet output every year) with a positive flat
maintenance cost, so `OPEX > 0` while `CO2_fleet = 0`. -/
def inputsZeroOutput : ModelInputs :=
  { defaultInputs with
      CO2_tpd := 0, W_total := 0, C_vessels := 0, C_adsorbent := 0, C_HX := 0,
      C_blower := 0, C_valves := 0, C_compressor := 0, C_pretreat := 0,
      C_controls := 0, C_electrical := 0, C_piping := 0, C_container := 0,
      C_cal := 0, C_monitor := 0, f_insurance := 0, f_maint := 0,
      T_ads_life := 1, T_project := 0, N_units := 1 }

/-! ### Helper lemmas -/

theorem jsArrGet_natCast (xs : List ℝ) (m : ℕ) : jsArrGet xs (m : ℝ) = xs.getD m 0 := by
  have h : ∃ k : ℕ, (k : ℝ) = (m : ℝ) := ⟨m, rfl⟩
  have hc : h.choose = m := Nat.cast_injective h.choose_spec
  simp only [jsArrGet, dif_pos h, hc]

theorem years_length (I : ModelInputs) : (years I).length = I.T_project + 1 := by
  simp [years]

theorem years_getLastD (I : ModelInputs) :
    (years I).getLastD default = mkYear I I.T_project := by
  simp [years, List.range_succ]

theorem years_getElem?_of_lt (I : ModelInputs) {i : ℕ} (h : i < I.T_project + 1) :
    (years I)[i]? = some (mkYear I i) := by
  simp [years, List.getElem?_range h]

theorem exists_of_mem_years {I : ModelInputs} {rec : YearRecord}
    (h : rec ∈ (runFinancialModel I).years) : ∃ y, y ≤ I.T_project ∧ rec = mkYear I y := by
  have h' : rec ∈ (List.range (I.T_project + 1)).map (mkYear I) := h
  rw [List.mem_map] at h'
  obtain ⟨y, hy, rfl⟩ := h'
  exact ⟨y, Nat.lt_succ_iff.mp (List.mem_range.mp hy), rfl⟩

theorem yr1_eq (I : ModelInputs) :
    yr1 I = if 1 ≤ I.T_project then mkYear I 1 else mkYear I 0 := by
  by_cases h : 1 ≤ I.T_project
  · have h1 : 1 < I.T_project + 1 := by omega
    simp [yr1, years_getElem?_of_lt I h1, h]
  · have h0 : I.T_project = 0 := by omega
    simp [yr1, years, h0, List.range_succ]

/-! ### Claim theorems -/

/-- C1: for every input parameter set, the NPV returned by
`runFinancialModel` equals the cumulative discounted cash flow recorded
in the final `YearRecord` of the returned year sequence, and equals
`∑ CF(y) / (1 + r_disc/100) ^ y` over `y = 0..T_project`. -/
theorem npv_eq_final_cumulative_dcf (I : ModelInputs) :
    (runFinancialModel I).NPV
        = (((runFinancialModel I).years).getLastD default).cumulative_dcf
      ∧ (runFinancialModel I).NPV
        = ∑ y ∈ Finset.range (I.T_project + 1), CF I y / (1 + I.r_disc / 100) ^ y := by
  constructor
  · show NPV I = ((years I).getLastD default).cumulative_dcf
    rw [years_getLastD]
    rfl
  · show NPV I = _
    simp [NPV, cumulative_dcf, DCF, discount_factor]

/-- C4: with fleet size at least 1 and a nonnegative deploy rate, the
deployed-unit count `N(y) = min(N_units, floor(y * units_per_year) + 1)`
is nondecreasing in `y`, is at least 1 at `y = 0`, and never exceeds
`N_units`. -/
theorem deployment_count_monotone_bounds (I : ModelInputs)
    (h1 : 1 ≤ I.N_units) (h2 : 0 ≤ I.units_per_year) :
    (∀ y z : ℕ, y ≤ z → N_deployed I y ≤ N_deployed I z)
      ∧ 1 ≤ N_deployed I 0
      ∧ ∀ y : ℕ, N_deployed I y ≤ I.N_units := by
  refine ⟨?_, ?_, fun y => min_le_left _ _⟩
  · intro y z hyz
    unfold N_deployed
    apply min_le_min le_rfl
    have hle : (y : ℝ) * I.units_per_year ≤ (z : ℝ) * I.units_per_year :=
      mul_le_mul_of_nonneg_right (by exact_mod_cast hyz) h2
    have := Int.floor_le_floor hle
    have : ((⌊(y : ℝ) * I.units_per_year⌋ : ℤ) : ℝ) ≤ ((⌊(z : ℝ) * I.units_per_year⌋ : ℤ) : ℝ) := by
      exact_mod_cast this
    linarith
  · unfold N_deployed
    have h0 : ((0 : ℕ) : ℝ) * I.units_per_year = 0 := by norm_num
    rw [h0, Int.floor_zero]
    exact le_min h1 (by norm_num)

/-- Witness for C4 at the app's default inputs. -/
theorem deployment_count_monotone_bounds_witness :
    ((1 : ℝ) ≤ defaultInputs.N_units ∧ (0 : ℝ) ≤ defaultInputs.units_per_year)
      ∧ 1 ≤ N_deployed defaultInputs 0 :=
  ⟨⟨by norm_num [defaultInputs], by norm_num [defaultInputs]⟩,
    (deployment_count_monotone_bounds defaultInputs (by norm_num [defaultInputs])
      (by norm_num [defaultInputs])).2.1⟩

/-- C5: for every input with at least one unit, the first entry of the
unit CAPEX schedule equals `CAPEX_unit1` exactly (at `n = 1` the
learning-curve factor `n ^ log2(LR)` is exactly 1), where `CAPEX_unit1`
is the sum of the eleven capital line items scaled by
`(1 + f_install + f_engineering)`. -/
theorem unit_capex_head_eq_capex_unit1 (I : ModelInputs) (h : 1 ≤ I.N_units) :
    (unit_capex I).headD 0 = CAPEX_unit1 I
      ∧ CAPEX_unit1 I
        = (I.C_vessels + I.C_adsorbent + I.C_HX + I.C_blower + I.C_valves
            + I.C_compressor + I.C_pretreat + I.C_controls + I.C_electrical
            + I.C_piping + I.C_container) * (1 + I.f_install + I.f_engineering) := by
  refine ⟨?_, rfl⟩
  have hn : 1 ≤ numUnits I := by
    have hfl : (1 : ℤ) ≤ ⌊I.N_units⌋ := by
      rw [Int.le_floor]
      exact_mod_cast h
    unfold numUnits
    omega
  obtain ⟨m, hm⟩ : ∃ m, numUnits I = m + 1 := ⟨numUnits I - 1, by omega⟩
  unfold unit_capex
  rw [hm, List.range_succ_eq_map]
  simp [Real.one_rpow]

/-- Witness for C5 at the app's default inputs. -/
theorem unit_capex_head_eq_capex_unit1_witness :
    (1 : ℝ) ≤ defaultInputs.N_units
      ∧ (unit_capex defaultInputs).headD 0 = CAPEX_unit1 defaultInputs :=
  ⟨by norm_num [defaultInputs],
    (unit_capex_head_eq_capex_unit1 defaultInputs (by norm_num [defaultInputs])).1⟩

/-- Bracket invariant of the breakeven bisection: starting from
`0 ≤ lo ≤ hi ≤ 300`, the loop keeps `0 ≤ b_lo ≤ b_hi ≤ 300`. -/
theorem beLoop_bounds (I : ModelInputs) (ys : List YearRecord) :
    ∀ (fuel : ℕ) (lo hi : ℝ), 0 ≤ lo → lo ≤ hi → hi ≤ 300 →
      0 ≤ (beLoop I ys fuel lo hi).1
        ∧ (beLoop I ys fuel lo hi).1 ≤ (beLoop I ys fuel lo hi).2
        ∧ (beLoop I ys fuel lo hi).2 ≤ 300 := by
  intro fuel
  induction fuel with
  | zero => exact fun lo hi h0 hlh hh => ⟨h0, hlh, hh⟩
  | succ n ih =>
    intro lo hi h0 hlh hh
    simp only [beLoop]
    split_ifs with hc hb hb
    · exact ⟨by linarith, by linarith, hh⟩
    · exact ih _ _ (by linarith) (by linarith) hh
    · exact ⟨h0, by linarith, by linarith⟩
    · exact ih _ _ h0 (by linarith) (by linarith)

/-- C9: the breakeven credit price returned by `runFinancialModel` is
always a defined number in the closed interval `[0, 300]`: the bisection
keeps `0 ≤ b_lo ≤ b_hi ≤ 300` as an invariant (with at most 80
iterations by construction of `beFinal`) and the result is the final
bracket midpoint. -/
theorem breakeven_defined_in_bracket (I : ModelInputs) :
    ∃ x : ℝ, (runFinancialModel I).CR_breakeven = some x
      ∧ x = ((beFinal I).1 + (beFinal I).2) / 2
      ∧ 0 ≤ (beFinal I).1 ∧ (beFinal I).1 ≤ (beFinal I).2 ∧ (beFinal I).2 ≤ 300
      ∧ 0 ≤ x ∧ x ≤ 300 := by
  obtain ⟨h0, h1, h2⟩ :=
    beLoop_bounds I (years I) 80 0 300 le_rfl (by norm_num) le_rfl
  exact ⟨((beFinal I).1 + (beFinal I).2) / 2, rfl, rfl, h0, h1, h2,
    by unfold beFinal at *; constructor <;> linarith⟩

/-- C10: the year-1 summary outputs of `runFinancialModel` come from the
record at year offset 1 whenever `T_project ≥ 1` and fall back to the
offset-0 record exactly when `T_project = 0`, the only case in which the
year sequence has no second entry. -/
theorem yr1_summary_selection (I : ModelInputs) :
    yr1 I = (if 1 ≤ I.T_project then mkYear I 1 else mkYear I 0)
      ∧ ((years I)[1]? = none ↔ I.T_project = 0)
      ∧ (runFinancialModel I).CO2_fleet_yr1 = (yr1 I).CO2_fleet
      ∧ (runFinancialModel I).R_per_ton_45Q
          = (if 0 < (yr1 I).CO2_fleet then (yr1 I).R_45Q / (yr1 I).CO2_fleet else 0)
      ∧ (runFinancialModel I).R_per_ton_VCM
          = (if 0 < (yr1 I).CO2_fleet then (yr1 I).R_VCM / (yr1 I).CO2_fleet else 0)
      ∧ (runFinancialModel I).R_per_ton_offtake
          = (if 0 < (yr1 I).CO2_fleet then (yr1 I).R_offtake / (yr1 I).CO2_fleet else 0)
      ∧ (runFinancialModel I).R_per_ton_comply
          = (if 0 < (yr1 I).CO2_fleet then (yr1 I).R_comply / (yr1 I).CO2_fleet else 0)
      ∧ (runFinancialModel I).yr1_revenue = (yr1 I).R_total
      ∧ (runFinancialModel I).yr1_opex = (yr1 I).OPEX := by
  refine ⟨yr1_eq I, ?_, rfl, rfl, rfl, rfl, rfl, rfl, rfl⟩
  rw [List.getElem?_eq_none_iff, years_length]
  omega

/-- C2 counterexample: with all four allocation fractions 0 but the
greenhouse fraction 0.5, the greenhouse part of the offtake stream still
pays, so year 0 has nonzero total revenue. -/
theorem revenue_nonzero_with_greenhouse_counterexample :
    inputsGh.f_45Q = 0 ∧ inputsGh.f_VCM = 0 ∧ inputsGh.f_offtake = 0
      ∧ inputsGh.f_comply = 0
      ∧ ∃ rec ∈ (runFinancialModel inputsGh).years, rec.R_total ≠ 0 := by
  refine ⟨rfl, rfl, rfl, rfl, mkYear inputsGh 0, ?_, ?_⟩
  · exact List.mem_map.mpr ⟨0, List.mem_range.mpr (Nat.succ_pos _), rfl⟩
  · show R_total inputsGh 0 ≠ 0
    norm_num [R_total, R_45Q, R_VCM, R_offtake, R_offtake_non_gh, R_offtake_gh,
      R_comply, P_VCM_y, P_offtake_y, P_gh_y, escalation_rev, CO2_fleet, N_deployed,
      CO2_tpy, inputsGh, defaultInputs]

/-- C2 (amended): if all four allocation fractions and the greenhouse
fraction are 0, total revenue is 0 in every `YearRecord` produced by the
simulation, regardless of all other parameters. -/
theorem total_revenue_zero_of_zero_fractions (I : ModelInputs)
    (h45 : I.f_45Q = 0) (hV : I.f_VCM = 0) (hO : I.f_offtake = 0)
    (hC : I.f_comply = 0) (hG : I.f_greenhouse = 0) :
    ∀ rec ∈ (runFinancialModel I).years, rec.R_total = 0 := by
  intro rec hrec
  obtain ⟨y, _, rfl⟩ := exists_of_mem_years hrec
  show R_total I y = 0
  unfold R_total R_45Q R_VCM R_offtake R_offtake_non_gh R_offtake_gh R_comply
  rw [h45, hV, hO, hC, hG]
  simp

/-- Witness for the amended C2 at a zero-allocation input set. -/
theorem total_revenue_zero_of_zero_fractions_witness :
    (mkYear inputsZeroAlloc 0).R_total = 0 :=
  total_revenue_zero_of_zero_fractions inputsZeroAlloc rfl rfl rfl rfl rfl
    (mkYear inputsZeroAlloc 0)
    (List.mem_map.mpr ⟨0, List.mem_range.mpr (Nat.succ_pos _), rfl⟩)

/-- C6 counterexample: with a negative base credit rate (outside the UI
slider range but accepted by the engine) and `r_CPI = 100 ≥ 0`, the
escalated effective rate drops below the base rate. -/
theorem credit_rate_below_base_counterexample :
    0 ≤ inputsNegRate.r_CPI
      ∧ effCreditRate inputsNegRate 0 < inputsNegRate.CR_45Q := by
  constructor
  · norm_num [inputsNegRate, defaultInputs]
  · have hcond : inputsNegRate.Y_45Q_infl ≤ inputsNegRate.Y_start + ((0 : ℕ) : ℤ) := by
      norm_num [inputsNegRate, defaultInputs]
    unfold effCreditRate
    rw [if_pos hcond]
    norm_num [inputsNegRate, defaultInputs]

/-- C6 (amended): the effective credit rate equals the base rate strictly
before the inflation start year and equals the compounded escalation
afterwards; with `r_CPI ≥ 0` and a nonnegative base rate (the slider
range enforces `CR_45Q ≥ 0`), the effective rate is never below the base
rate. -/
theorem effective_credit_rate_escalation (I : ModelInputs) (y : ℕ)
    (hCPI : 0 ≤ I.r_CPI) (hCR : 0 ≤ I.CR_45Q) :
    I.CR_45Q ≤ effCreditRate I y
      ∧ (I.Y_start + (y : ℤ) < I.Y_45Q_infl → effCreditRate I y = I.CR_45Q)
      ∧ (I.Y_45Q_infl ≤ I.Y_start + (y : ℤ) →
          effCreditRate I y
            = I.CR_45Q * (1 + I.r_CPI / 100) ^ (I.Y_start + (y : ℤ) - I.Y_45Q_infl)) := by
  unfold effCreditRate
  by_cases hy : I.Y_45Q_infl ≤ I.Y_start + (y : ℤ)
  · rw [if_pos hy]
    refine ⟨?_, fun h => absurd hy (not_le.mpr h), fun _ => rfl⟩
    have hbase : (1 : ℝ) ≤ 1 + I.r_CPI / 100 := by linarith
    have hpow : (1 : ℝ) ≤ (1 + I.r_CPI / 100) ^ (I.Y_start + (y : ℤ) - I.Y_45Q_infl) :=
      one_le_zpow₀ hbase (by omega)
    calc I.CR_45Q = I.CR_45Q * 1 := (mul_one _).symm
    _ ≤ _ := mul_le_mul_of_nonneg_left hpow hCR
  · rw [if_neg hy]
    exact ⟨le_refl _, fun _ => rfl, fun h => absurd h hy⟩

/-- Witness for the amended C6 at the app's default inputs. -/
theorem effective_credit_rate_escalation_witness :
    ((0 : ℝ) ≤ defaultInputs.r_CPI ∧ (0 : ℝ) ≤ defaultInputs.CR_45Q)
      ∧ defaultInputs.CR_45Q ≤ effCreditRate defaultInputs 0 :=
  ⟨⟨by norm_num [defaultInputs], by norm_num [defaultInputs]⟩,
    (effective_credit_rate_escalation defaultInputs 0 (by norm_num [defaultInputs])
      (by norm_num [defaultInputs])).1⟩

/-- C8 counterexample: at an input with zero fleet output and positive
OPEX, the produced year record's per-ton ratio fields are 0 (the guarded
else-branch), not unguarded non-finite division results. -/
theorem per_ton_guarded_zero_counterexample :
    mkYear inputsZeroOutput 0 ∈ (runFinancialModel inputsZeroOutput).years
      ∧ ¬ 0 < (mkYear inputsZeroOutput 0).CO2_fleet
      ∧ 0 < (mkYear inputsZeroOutput 0).OPEX
      ∧ (mkYear inputsZeroOutput 0).R_per_ton = 0
      ∧ (mkYear inputsZeroOutput 0).OPEX_per_ton = 0 := by
  have hCO2 : CO2_fleet inputsZeroOutput 0 = 0 := by
    norm_num [CO2_fleet, N_deployed, CO2_tpy, inputsZeroOutput, defaultInputs]
  refine ⟨List.mem_map.mpr ⟨0, List.mem_range.mpr (Nat.succ_pos _), rfl⟩, ?_, ?_, ?_, ?_⟩
  · show ¬ 0 < CO2_fleet inputsZeroOutput 0
    rw [hCO2]
    norm_num
  · show 0 < OPEX inputsZeroOutput 0
    norm_num [OPEX, C_elec, C_ads_replace, C_fixed, C_insure, C_gen_maint,
      opex_escalation, N_deployed, CO2_tpy, inputsZeroOutput, defaultInputs]
  · show (if 0 < CO2_fleet inputsZeroOutput 0 then _ else 0) = 0
    rw [if_neg (by rw [hCO2]; norm_num)]
  · show (if 0 < CO2_fleet inputsZeroOutput 0 then _ else 0) = 0
    rw [if_neg (by rw [hCO2]; norm_num)]

/-- C8 (amended): for any year record with non-positive fleet output, the
per-output-unit ratio fields are guarded and set to 0; the computation is
total and does not fail. -/
theorem per_ton_zero_of_no_output (I : ModelInputs) :
    ∀ rec ∈ (runFinancialModel I).years, ¬ 0 < rec.CO2_fleet →
      rec.R_per_ton = 0 ∧ rec.OPEX_per_ton = 0 := by
  intro rec hrec h
  obtain ⟨y, _, rfl⟩ := exists_of_mem_years hrec
  have h' : ¬ 0 < CO2_fleet I y := h
  constructor
  · show (if 0 < CO2_fleet I y then _ else 0) = 0
    rw [if_neg h']
  · show (if 0 < CO2_fleet I y then _ else 0) = 0
    rw [if_neg h']

/-- Witness for the amended C8 at the zero-output input set. -/
theorem per_ton_zero_of_no_output_witness :
    (mkYear inputsZeroOutput 0).R_per_ton = 0
      ∧ (mkYear inputsZeroOutput 0).OPEX_per_ton = 0 :=
  per_ton_zero_of_no_output inputsZeroOutput (mkYear inputsZeroOutput 0)
    (List.mem_map.mpr ⟨0, List.mem_range.mpr (Nat.succ_pos _), rfl⟩)
    (by
      show ¬ 0 < CO2_fleet inputsZeroOutput 0
      norm_num [CO2_fleet, N_deployed, CO2_tpy, inputsZeroOutput, defaultInputs])

theorem irrLoop_step_pos (ys : List YearRecord) (fuel : ℕ) (lo hi : ℝ)
    (hpos : 0 < npvAtRate ys ((lo + hi) / 2))
    (hw : ¬ |hi - (lo + hi) / 2| < 0.0001) :
    irrLoop ys (fuel + 1) lo hi = irrLoop ys fuel ((lo + hi) / 2) hi := by
  simp only [irrLoop]
  rw [if_pos hpos]
  dsimp only
  rw [if_neg hw]

/-- The IRR bisection never moves `lo` down nor `hi` up, and keeps the
bracket ordered. -/
theorem irrLoop_bounds (ys : List YearRecord) :
    ∀ (fuel : ℕ) (lo hi : ℝ), lo ≤ hi →
      lo ≤ (irrLoop ys fuel lo hi).1
        ∧ (irrLoop ys fuel lo hi).1 ≤ (irrLoop ys fuel lo hi).2
        ∧ (irrLoop ys fuel lo hi).2 ≤ hi := by
  intro fuel
  induction fuel with
  | zero => exact fun lo hi hlh => ⟨le_rfl, hlh, le_rfl⟩
  | succ n ih =>
    intro lo hi hlh
    simp only [irrLoop]
    split_ifs with hc hb hb
    · exact ⟨by linarith, by linarith, le_rfl⟩
    · obtain ⟨a, b, c⟩ := ih ((lo + hi) / 2) hi (by linarith)
      exact ⟨by linarith, b, c⟩
    · exact ⟨le_rfl, by linarith, by linarith⟩
    · obtain ⟨a, b, c⟩ := ih lo ((lo + hi) / 2) (by linarith)
      exact ⟨a, b, by linarith⟩

/-- When the objective is positive everywhere on the bracket, only `lo`
ever moves: the upper endpoint comes back unchanged. -/
theorem irrLoop_pos_snd (ys : List YearRecord)
    (hpos : ∀ r : ℝ, -0.5 ≤ r → r ≤ 2 → 0 < npvAtRate ys r) :
    ∀ (fuel : ℕ) (lo hi : ℝ), -0.5 ≤ lo → lo ≤ hi → hi ≤ 2 →
      (irrLoop ys fuel lo hi).2 = hi := by
  intro fuel
  induction fuel with
  | zero => intro lo hi _ _ _; rfl
  | succ n ih =>
    intro lo hi hl hlh hh
    have hnpv : 0 < npvAtRate ys ((lo + hi) / 2) := hpos _ (by linarith) (by linarith)
    simp only [irrLoop]
    rw [if_pos hnpv]
    split_ifs with hb
    · rfl
    · exact ih _ _ (by linarith) (by linarith) hh

/-- When the objective is nowhere positive on the bracket, only `hi` ever
moves: the lower endpoint comes back unchanged. -/
theorem irrLoop_nonpos_fst (ys : List YearRecord)
    (hneg : ∀ r : ℝ, -0.5 ≤ r → r ≤ 2 → ¬ 0 < npvAtRate ys r) :
    ∀ (fuel : ℕ) (lo hi : ℝ), -0.5 ≤ lo → lo ≤ hi → hi ≤ 2 →
      (irrLoop ys fuel lo hi).1 = lo := by
  intro fuel
  induction fuel with
  | zero => intro lo hi _ _ _; rfl
  | succ n ih =>
    intro lo hi hl hlh hh
    have hnpv : ¬ 0 < npvAtRate ys ((lo + hi) / 2) := hneg _ (by linarith) (by linarith)
    simp only [irrLoop]
    rw [if_neg hnpv]
    split_ifs with hb
    · rfl
    · exact ih _ _ hl (by linarith) (by linarith)

theorem CF_inputsAllPos : CF inputsAllPos 0 = 365 := by
  have hcap1 : CAPEX_unit1 inputsAllPos = 0 := by
    norm_num [CAPEX_unit1, C_equipment, inputsAllPos, defaultInputs]
  have hnum : numUnits inputsAllPos = 1 := by
    norm_num [numUnits, inputsAllPos, defaultInputs]
  have huc : unit_capex inputsAllPos = [0] := by
    rw [unit_capex, hnum, hcap1]
    simp [List.range_succ]
  have hlen : capexYearLen inputsAllPos 0 = 1 := by
    norm_num [capexYearLen, N_deployed, N_prev, inputsAllPos, defaultInputs]
  have hidx : N_prev inputsAllPos 0 + ((0 : ℕ) : ℝ) = ((0 : ℕ) : ℝ) := by
    norm_num [N_prev]
  have hcapyear : capex_year inputsAllPos 0 = 0 := by
    rw [capex_year, hlen, Finset.sum_range_one, hidx, jsArrGet_natCast, huc]
    rfl
  have hR : R_total inputsAllPos 0 = 365 := by
    norm_num [R_total, R_45Q, R_VCM, R_offtake, R_offtake_non_gh, R_offtake_gh,
      R_comply, P_VCM_y, P_offtake_y, P_gh_y, escalation_rev, CO2_fleet, N_deployed,
      CO2_tpy, inputsAllPos, defaultInputs]
  have hOPEX : OPEX inputsAllPos 0 = 0 := by
    norm_num [OPEX, C_elec, C_ads_replace, C_fixed, C_insure, C_gen_maint,
      opex_escalation, N_deployed, CO2_tpy, inputsAllPos, defaultInputs]
  unfold CF
  rw [hR, hOPEX, hcapyear]
  norm_num

theorem npvAtRate_inputsAllPos (r : ℝ) : npvAtRate (years inputsAllPos) r = 365 := by
  have hT : inputsAllPos.T_project = 0 := rfl
  have hyears : years inputsAllPos = [mkYear inputsAllPos 0] := by
    simp [years, hT, List.range_succ]
  rw [hyears]
  show CF inputsAllPos 0 / (1 + r) ^ (0 : ℕ) + 0 = 365
  rw [pow_zero, div_one, CF_inputsAllPos]
  norm_num

/-- C3 counterexample: for the all-positive cash-flow input, the final
IRR bracket has a lower endpoint far from its initial extreme (so the
bracket is not "unchanged at both extremes"), yet the solver reports
`null` — refuting "in every other case a numeric IRR is returned". -/
theorem irr_null_despite_moved_bracket_counterexample :
    (runFinancialModel inputsAllPos).IRR = none
      ∧ 0.01 < |(irrFinal inputsAllPos).1 - (-0.5)| := by
  have hpos : ∀ r : ℝ, -0.5 ≤ r → r ≤ 2 → 0 < npvAtRate (years inputsAllPos) r := by
    intro r _ _
    rw [npvAtRate_inputsAllPos]
    norm_num
  have h2 : (irrFinal inputsAllPos).2 = 2 :=
    irrLoop_pos_snd _ hpos 100 _ _ (by norm_num) (by norm_num) le_rfl
  constructor
  · show IRR inputsAllPos = none
    unfold IRR
    rw [if_neg]
    intro hcontra
    rw [h2] at hcontra
    norm_num at hcontra
  · have hstep : irrFinal inputsAllPos
        = irrLoop (years inputsAllPos) 99 (((-0.5 : ℝ) + 2) / 2) 2 := by
      unfold irrFinal
      rw [show (100 : ℕ) = 99 + 1 by norm_num]
      refine irrLoop_step_pos _ 99 _ _ (by rw [npvAtRate_inputsAllPos]; norm_num) ?_
      rw [not_lt, abs_of_nonneg (by norm_num : (0 : ℝ) ≤ 2 - ((-0.5 : ℝ) + 2) / 2)]
      norm_num
    have hge : (((-0.5 : ℝ) + 2) / 2) ≤ (irrLoop (years inputsAllPos) 99 (((-0.5 : ℝ) + 2) / 2) 2).1 :=
      (irrLoop_bounds _ 99 _ 2 (by norm_num)).1
    have hmid : (((-0.5 : ℝ) + 2) / 2) = 0.75 := by norm_num
    rw [hstep]
    calc (0.01 : ℝ) < 1.25 := by norm_num
    _ ≤ (irrLoop (years inputsAllPos) 99 (((-0.5 : ℝ) + 2) / 2) 2).1 - (-0.5) := by
      rw [hmid] at hge
      linarith
    _ ≤ |(irrLoop (years inputsAllPos) 99 (((-0.5 : ℝ) + 2) / 2) 2).1 - (-0.5)| := le_abs_self _

/-- C3 (amended): the IRR bisection on `[-0.5, 2.0]` (100 iterations,
break at width < 0.0001) reports `null` exactly when at least one final
bracket endpoint is within 0.01 of its initial extreme; and whenever the
objective never changes sign over the bracket, the IRR is `null` (the
solver is a total function and never throws). -/
theorem irr_null_iff_endpoint_unmoved (I : ModelInputs) :
    ((runFinancialModel I).IRR = none ↔
        |(irrFinal I).1 - (-0.5)| ≤ 0.01 ∨ |(irrFinal I).2 - 2| ≤ 0.01)
      ∧ (((∀ r : ℝ, -0.5 ≤ r → r ≤ 2 → 0 < npvAtRate (years I) r)
            ∨ (∀ r : ℝ, -0.5 ≤ r → r ≤ 2 → ¬ 0 < npvAtRate (years I) r)) →
          (runFinancialModel I).IRR = none) := by
  have hchar0 : IRR I = none ↔
      ¬(0.01 < |(irrFinal I).1 - (-0.5)| ∧ 0.01 < |(irrFinal I).2 - 2|) := by
    unfold IRR
    split_ifs with h
    · exact iff_of_false (by simp) (not_not_intro h)
    · exact iff_of_true rfl h
  have hchar : (runFinancialModel I).IRR = none ↔
      |(irrFinal I).1 - (-0.5)| ≤ 0.01 ∨ |(irrFinal I).2 - 2| ≤ 0.01 := by
    rw [show (runFinancialModel I).IRR = IRR I from rfl, hchar0, not_and_or, not_lt, not_lt]
  refine ⟨hchar, fun hsign => hchar.mpr ?_⟩
  rcases hsign with hpos | hneg
  · right
    have h2 : (irrFinal I).2 = 2 :=
      irrLoop_pos_snd _ hpos 100 _ _ (by norm_num) (by norm_num) le_rfl
    rw [h2]
    norm_num
  · left
    have h1 : (irrFinal I).1 = -0.5 :=
      irrLoop_nonpos_fst _ hneg 100 _ _ (by norm_num) (by norm_num) le_rfl
    rw [h1]
    norm_num

/-- Witness for the amended C3: at the all-positive cash-flow input the
objective never changes sign over the bracket, and the IRR is `null`. -/
theorem irr_null_iff_endpoint_unmoved_witness :
    (runFinancialModel inputsAllPos).IRR = none :=
  (irr_null_iff_endpoint_unmoved inputsAllPos).2
    (Or.inl fun r _ _ => by rw [npvAtRate_inputsAllPos]; norm_num)

/-- C7: for any possibly-failing model evaluation `f` (exception
semantics of the JS `try/catch`), the sensitivity sweep perturbs each of
the 8 fixed parameters independently to 0.8x and 1.2x of its base value
with all others held at base, substitutes the supplied base-case NPV for
a side whose run fails, and always returns one entry per parameter,
sorted by `|npv_hi - npv_lo|` descending; `runSensitivity` is this sweep
instantiated with the (total) model NPV. -/
theorem sensitivity_perturbation_fallback_sorted
    (f : ModelInputs → Option ℝ) (I : ModelInputs) (baseNPV : ℝ) :
    (runSensitivityWith f I baseNPV).length = 8
      ∧ List.Sorted (fun a b : SensEntry => b.delta ≤ a.delta) (runSensitivityWith f I baseNPV)
      ∧ (runSensitivityWith f I baseNPV).Perm (sensParams.map (sensEntry f baseNPV I))
      ∧ (∀ p : SensKey × String × String,
          (sensEntry f baseNPV I p).npv_lo
              = (f (setKey I p.1 (getKey I p.1 * 0.8))).getD baseNPV
            ∧ (sensEntry f baseNPV I p).npv_hi
              = (f (setKey I p.1 (getKey I p.1 * 1.2))).getD baseNPV
            ∧ (sensEntry f baseNPV I p).delta
              = |(sensEntry f baseNPV I p).npv_hi - (sensEntry f baseNPV I p).npv_lo|
            ∧ (sensEntry f baseNPV I p).key = p.1
            ∧ (sensEntry f baseNPV I p).base_val = getKey I p.1)
      ∧ sensParams.map (fun p => p.1)
          = [SensKey.kCR_45Q, SensKey.kCO2_tpd, SensKey.kf_avail, SensKey.kP_offtake,
             SensKey.kP_elec, SensKey.kr_disc, SensKey.kN_units, SensKey.kT_ads_life]
      ∧ runSensitivity I baseNPV = runSensitivityWith modelNPV I baseNPV
      ∧ ∀ J, modelNPV J = some (runFinancialModel J).NPV := by
  haveI hTot : IsTotal SensEntry (fun a b => b.delta ≤ a.delta) :=
    ⟨fun a b => le_total b.delta a.delta⟩
  haveI hTrans : IsTrans SensEntry (fun a b => b.delta ≤ a.delta) :=
    ⟨fun a b c h1 h2 => le_trans h2 h1⟩
  refine ⟨?_, ?_, ?_, fun p => ⟨rfl, rfl, rfl, rfl, rfl⟩, rfl, rfl, fun J => rfl⟩
  · rw [runSensitivityWith, List.length_insertionSort, List.length_map]
    rfl
  · exact List.sorted_insertionSort _ _
  · exact List.perm_insertionSort _ _

end BioCO2
